import Mathlib

/-!
Verification of the psychrometric core of the RLT cost-analysis dashboard
(`app.py`).  The floating-point arithmetic of the source is modelled over the
real numbers; `np.exp` and `np.log` become `Real.exp` and `Real.log`, and
Python's `round(x, n)` becomes rounding of `x * 10 ^ n` to the nearest integer
(Python uses round-half-to-even at exact ties; no statement below depends on
the behaviour at a tie).  Function and field names follow the source.
-/

namespace RLT

/-- Rounding to `n` decimal places, modelling Python's `round(x, n)`. -/
noncomputable def pyround (n : ℕ) (x : ℝ) : ℝ :=
  ((round (x * 10 ^ n) : ℤ) : ℝ) / 10 ^ n

/-- Source `saettigungsdampfdruck`: Magnus formula for saturation vapor
pressure in Pa, `611.2 * exp(17.67*T / (T + 243.5))`. -/
noncomputable def saettigungsdampfdruck (temp : ℝ) : ℝ :=
  611.2 * Real.exp ((17.67 * temp) / (temp + 243.5))

/-- Source `abs_feuchte_aus_rel_feuchte`: humidity ratio (kg/kg) from
temperature and relative humidity (%). -/
noncomputable def abs_feuchte_aus_rel_feuchte (temp rel_feuchte : ℝ) : ℝ :=
  0.622 * (rel_feuchte / 100 * saettigungsdampfdruck temp) /
    (101325 - rel_feuchte / 100 * saettigungsdampfdruck temp)

/-- Source `rel_feuchte_aus_abs_feuchte`: relative humidity (%) from
temperature and humidity ratio, clamped above at 100. -/
noncomputable def rel_feuchte_aus_abs_feuchte (temp abs_feuchte : ℝ) : ℝ :=
  min 100 (abs_feuchte * 101325 / (0.622 + abs_feuchte) /
    saettigungsdampfdruck temp * 100)

/-- Source `enthalpie_feuchte_luft`: specific enthalpy of moist air in J/kg
dry air. -/
noncomputable def enthalpie_feuchte_luft (temp abs_feuchte : ℝ) : ℝ :=
  1005 * temp + abs_feuchte * (2501000 + 1870 * temp)

/-- Source `taupunkt_aus_abs_feuchte`: dew point in °C from the humidity
ratio, with sentinel value `-50` for non-positive humidity ratios. -/
noncomputable def taupunkt_aus_abs_feuchte (abs_feuchte : ℝ) : ℝ :=
  if abs_feuchte ≤ 0 then -50
  else
    243.5 * Real.log (abs_feuchte * 101325 / (0.622 + abs_feuchte) / 611.2) /
      (17.67 - Real.log (abs_feuchte * 101325 / (0.622 + abs_feuchte) / 611.2))

/-- Source `kuhltemperatur_fur_entfeuchtung`; the Python default
`sicherheit=1` is passed explicitly by every Lean call site. -/
noncomputable def kuhltemperatur_fur_entfeuchtung (ziel_abs_feuchte sicherheit : ℝ) : ℝ :=
  taupunkt_aus_abs_feuchte ziel_abs_feuchte - sicherheit

/-- Air state record produced by `berechne_luftzustand` (display-rounded
values, as in the source dict). -/
structure Zustand where
  temperatur : ℝ
  rel_feuchte : ℝ
  abs_feuchte : ℝ
  enthalpie : ℝ
  taupunkt : ℝ

/-- Process-step tag, abstracting the `punkt` label strings of the source
(`Außenluft`, `Nach WRG`, `Gekühlt auf …°C`, `Nachheizung`, `Erwärmung`,
`Kühlung`); `gekuehlt` carries the temperature interpolated into the label. -/
inductive Punkt where
  | aussenluft : Punkt
  | nachWRG : Punkt
  | gekuehlt : ℝ → Punkt
  | nachheizung : Punkt
  | erwaermung : Punkt
  | kuehlung : Punkt

/-- The `leistungen` dict of the source: per-stage specific energies in J/kg,
with exactly these four keys over the whole life of the dict. -/
structure Leistungen where
  kuehlung_entf : ℝ
  nachheizung : ℝ
  heizung_direkt : ℝ
  kuehlung_direkt : ℝ

/-- The association-list view of the `leistungen` dict: its key/value pairs
in source order. -/
def leistungenMap (l : Leistungen) : List (String × ℝ) :=
  [("kuehlung_entf", l.kuehlung_entf), ("nachheizung", l.nachheizung),
   ("heizung_direkt", l.heizung_direkt), ("kuehlung_direkt", l.kuehlung_direkt)]

/-- Result of `berechne_rlt_prozess`: the ordered step list and the stage
energies. -/
structure Prozess where
  schritte : List (Punkt × Zustand)
  leistungen : Leistungen

/-- Source `berechne_luftzustand` called with `rel_feuchte` given (the
`abs_feuchte is None` branch). -/
noncomputable def berechne_luftzustand_rel (temp rel_feuchte : ℝ) : Zustand :=
  { temperatur := pyround 1 temp
    rel_feuchte := pyround 1 rel_feuchte
    abs_feuchte := pyround 2 (abs_feuchte_aus_rel_feuchte temp rel_feuchte * 1000)
    enthalpie := pyround 1
      (enthalpie_feuchte_luft temp (abs_feuchte_aus_rel_feuchte temp rel_feuchte) / 1000)
    taupunkt := pyround 1
      (taupunkt_aus_abs_feuchte (abs_feuchte_aus_rel_feuchte temp rel_feuchte)) }

/-- Source `berechne_luftzustand` called with `abs_feuchte` given (the other
branch, which derives `rel_feuchte`). -/
noncomputable def berechne_luftzustand_abs (temp abs_feuchte : ℝ) : Zustand :=
  { temperatur := pyround 1 temp
    rel_feuchte := pyround 1 (rel_feuchte_aus_abs_feuchte temp abs_feuchte)
    abs_feuchte := pyround 2 (abs_feuchte * 1000)
    enthalpie := pyround 1 (enthalpie_feuchte_luft temp abs_feuchte / 1000)
    taupunkt := pyround 1 (taupunkt_aus_abs_feuchte abs_feuchte) }

/-- Source line 92: `temp_nach_wrg = temp_aussen + (temp_zuluft - temp_aussen) * wrg_grad`. -/
noncomputable def temp_nach_wrg (temp_aussen temp_zuluft wrg_grad : ℝ) : ℝ :=
  temp_aussen + (temp_zuluft - temp_aussen) * wrg_grad

/-- The value of the source's `aktuelle_temp` after the conditional WRG block:
`temp_nach_wrg` when `wrg_grad > 0`, else the outdoor temperature. -/
noncomputable def aktuelle_temp_rlt (temp_aussen temp_zuluft wrg_grad : ℝ) : ℝ :=
  if 0 < wrg_grad then temp_nach_wrg temp_aussen temp_zuluft wrg_grad else temp_aussen

/-- The value of the source's `prozess['schritte']` after the conditional WRG
block: the outdoor state, followed by the Nach-WRG state iff `wrg_grad > 0`
(constructed at `temp_nach_wrg` with the outdoor humidity ratio). -/
noncomputable def schritte_wrg (temp_aussen feuchte_aussen temp_zuluft wrg_grad : ℝ) :
    List (Punkt × Zustand) :=
  if 0 < wrg_grad then
    [(Punkt.aussenluft, berechne_luftzustand_rel temp_aussen feuchte_aussen),
     (Punkt.nachWRG, berechne_luftzustand_abs
        (temp_nach_wrg temp_aussen temp_zuluft wrg_grad)
        (abs_feuchte_aus_rel_feuchte temp_aussen feuchte_aussen))]
  else
    [(Punkt.aussenluft, berechne_luftzustand_rel temp_aussen feuchte_aussen)]

/-- Source `berechne_rlt_prozess`: the fixed treatment pipeline
(outdoor state, optional heat recovery, then either dehumidification
cooling with optional reheat, or direct heating/cooling). -/
noncomputable def berechne_rlt_prozess (temp_aussen feuchte_aussen temp_zuluft
    feuchte_zuluft_soll wrg_grad : ℝ) (entfeuchten : Bool) : Prozess :=
  let abs_feuchte_aussen := abs_feuchte_aus_rel_feuchte temp_aussen feuchte_aussen
  let schritte_wrg := schritte_wrg temp_aussen feuchte_aussen temp_zuluft wrg_grad
  let aktuelle_temp := aktuelle_temp_rlt temp_aussen temp_zuluft wrg_grad
  let ziel_abs_feuchte := abs_feuchte_aus_rel_feuchte temp_zuluft feuchte_zuluft_soll
  if entfeuchten = true ∧ ziel_abs_feuchte < abs_feuchte_aussen then
    let temp_kuehlung := kuhltemperatur_fur_entfeuchtung ziel_abs_feuchte 1
    let kuehlung_entf := enthalpie_feuchte_luft aktuelle_temp abs_feuchte_aussen -
      enthalpie_feuchte_luft temp_kuehlung ziel_abs_feuchte
    if temp_kuehlung < temp_zuluft then
      { schritte := schritte_wrg ++
          [(Punkt.gekuehlt temp_kuehlung,
            berechne_luftzustand_abs temp_kuehlung ziel_abs_feuchte),
           (Punkt.nachheizung, berechne_luftzustand_abs temp_zuluft ziel_abs_feuchte)]
        leistungen :=
          { kuehlung_entf := kuehlung_entf
            nachheizung := enthalpie_feuchte_luft temp_zuluft ziel_abs_feuchte -
              enthalpie_feuchte_luft temp_kuehlung ziel_abs_feuchte
            heizung_direkt := 0
            kuehlung_direkt := 0 } }
    else
      { schritte := schritte_wrg ++
          [(Punkt.gekuehlt temp_kuehlung,
            berechne_luftzustand_abs temp_kuehlung ziel_abs_feuchte)]
        leistungen :=
          { kuehlung_entf := kuehlung_entf
            nachheizung := 0
            heizung_direkt := 0
            kuehlung_direkt := 0 } }
  else
    if aktuelle_temp < temp_zuluft then
      { schritte := schritte_wrg ++
          [(Punkt.erwaermung, berechne_luftzustand_abs temp_zuluft abs_feuchte_aussen)]
        leistungen :=
          { kuehlung_entf := 0
            nachheizung := 0
            heizung_direkt := enthalpie_feuchte_luft temp_zuluft abs_feuchte_aussen -
              enthalpie_feuchte_luft aktuelle_temp abs_feuchte_aussen
            kuehlung_direkt := 0 } }
    else if temp_zuluft < aktuelle_temp then
      { schritte := schritte_wrg ++
          [(Punkt.kuehlung, berechne_luftzustand_abs temp_zuluft abs_feuchte_aussen)]
        leistungen :=
          { kuehlung_entf := 0
            nachheizung := 0
            heizung_direkt := 0
            kuehlung_direkt := enthalpie_feuchte_luft aktuelle_temp abs_feuchte_aussen -
              enthalpie_feuchte_luft temp_zuluft abs_feuchte_aussen } }
    else
      { schritte := schritte_wrg
        leistungen :=
          { kuehlung_entf := 0
            nachheizung := 0
            heizung_direkt := 0
            kuehlung_direkt := 0 } }

/-! ### Basic analytic facts about the psychrometric functions -/

lemma sdp_pos (T : ℝ) : 0 < saettigungsdampfdruck T := by
  unfold saettigungsdampfdruck
  positivity

lemma exp_three_lt : Real.exp 3 < 20.1 := by
  have h : Real.exp 3 = Real.exp 1 ^ 3 := by
    rw [← Real.exp_nat_mul]; norm_num
  have h2 : Real.exp 1 ^ 3 < 2.7182818286 ^ 3 :=
    pow_lt_pow_left Real.exp_one_lt_d9 (Real.exp_pos 1).le (by norm_num)
  have h3 : (2.7182818286 : ℝ) ^ 3 < 20.1 := by norm_num
  linarith [h.le, h.ge]

lemma lt_exp_six : (166 : ℝ) < Real.exp 6 := by
  have h : Real.exp 6 = Real.exp 1 ^ 6 := by
    rw [← Real.exp_nat_mul]; norm_num
  have h2 : (2.7182818283 : ℝ) ^ 6 < Real.exp 1 ^ 6 :=
    pow_lt_pow_left Real.exp_one_gt_d9 (by norm_num) (by norm_num)
  have h3 : (166 : ℝ) < (2.7182818283 : ℝ) ^ 6 := by norm_num
  linarith [h.le, h.ge]

lemma sdp_lt_atm {T : ℝ} (hl : -243.5 < T) (hu : T ≤ 45) :
    saettigungsdampfdruck T < 101325 := by
  unfold saettigungsdampfdruck
  have hden : 0 < T + 243.5 := by linarith
  have hexp : (17.67 * T) / (T + 243.5) < 3 := by
    rw [div_lt_iff hden]; nlinarith
  have h1 : Real.exp ((17.67 * T) / (T + 243.5)) < Real.exp 3 := Real.exp_lt_exp.2 hexp
  nlinarith [exp_three_lt]

lemma sdp_strictMono {T1 T2 : ℝ} (hl : -243.5 < T1) (h12 : T1 < T2) :
    saettigungsdampfdruck T1 < saettigungsdampfdruck T2 := by
  unfold saettigungsdampfdruck
  have hd1 : 0 < T1 + 243.5 := by linarith
  have hd2 : 0 < T2 + 243.5 := by linarith
  have hexp : (17.67 * T1) / (T1 + 243.5) < (17.67 * T2) / (T2 + 243.5) := by
    rw [div_lt_div_iff hd1 hd2]; nlinarith
  have := Real.exp_lt_exp.2 hexp
  nlinarith [Real.exp_pos ((17.67 * T1) / (T1 + 243.5))]

lemma vapor_pressure_range {T rf : ℝ} (hl : -243.5 < T) (hu : T ≤ 45)
    (hrf0 : 0 ≤ rf) (hrf1 : rf ≤ 100) :
    0 ≤ rf / 100 * saettigungsdampfdruck T ∧
      rf / 100 * saettigungsdampfdruck T ≤ saettigungsdampfdruck T ∧
      rf / 100 * saettigungsdampfdruck T < 101325 := by
  have hs := sdp_pos T
  have h1 : 0 ≤ rf / 100 * saettigungsdampfdruck T := by positivity
  have h2 : rf / 100 * saettigungsdampfdruck T ≤ saettigungsdampfdruck T := by
    nlinarith
  exact ⟨h1, h2, lt_of_le_of_lt h2 (sdp_lt_atm hl hu)⟩

lemma w_of_e_nonneg {e : ℝ} (h0 : 0 ≤ e) (h1 : e < 101325) :
    0 ≤ 0.622 * e / (101325 - e) := by
  have : (0 : ℝ) < 101325 - e := by linarith
  positivity

lemma w_of_e_pos {e : ℝ} (h0 : 0 < e) (h1 : e < 101325) :
    0 < 0.622 * e / (101325 - e) := by
  have : (0 : ℝ) < 101325 - e := by linarith
  positivity

lemma w_of_e_strictMono {e1 e2 : ℝ} (h0 : 0 ≤ e1) (h12 : e1 < e2) (h2 : e2 < 101325) :
    0.622 * e1 / (101325 - e1) < 0.622 * e2 / (101325 - e2) := by
  rw [div_lt_div_iff (by linarith) (by linarith)]
  nlinarith

lemma abs_feuchte_nonneg {T rf : ℝ} (hl : -243.5 < T) (hu : T ≤ 45)
    (hrf0 : 0 ≤ rf) (hrf1 : rf ≤ 100) :
    0 ≤ abs_feuchte_aus_rel_feuchte T rf := by
  obtain ⟨h0, _, h1⟩ := vapor_pressure_range hl hu hrf0 hrf1
  exact w_of_e_nonneg h0 h1

lemma e_of_w_inverse {e : ℝ} (h0 : 0 ≤ e) (h1 : e < 101325) :
    0.622 * e / (101325 - e) * 101325 / (0.622 + 0.622 * e / (101325 - e)) = e := by
  have hne : (101325 : ℝ) - e ≠ 0 := by linarith
  have hw : 0 ≤ 0.622 * e / (101325 - e) := w_of_e_nonneg h0 h1
  have hne2 : 0.622 + 0.622 * e / (101325 - e) ≠ 0 := by positivity
  field_simp
  ring

/-! ### The Magnus inversion used by the dew-point function -/

/-- Abbreviation for the Magnus inversion `243.5·ln(e/611.2)/(17.67 − ln(e/611.2))`
applied to a vapor pressure `e`, the expression inlined in the source's
`taupunkt_aus_abs_feuchte`. -/
noncomputable def magnus_invers (e : ℝ) : ℝ :=
  243.5 * Real.log (e / 611.2) / (17.67 - Real.log (e / 611.2))

lemma taupunkt_eq_magnus {w : ℝ} (hw : 0 < w) :
    taupunkt_aus_abs_feuchte w = magnus_invers (w * 101325 / (0.622 + w)) := by
  unfold taupunkt_aus_abs_feuchte magnus_invers
  rw [if_neg (not_le.2 hw)]

lemma taupunkt_of_neg {w : ℝ} (hw : w ≤ 0) : taupunkt_aus_abs_feuchte w = -50 := by
  unfold taupunkt_aus_abs_feuchte
  rw [if_pos hw]

lemma E_pos {w : ℝ} (hw : 0 < w) : 0 < w * 101325 / (0.622 + w) := by
  positivity

lemma E_lt_atm {w : ℝ} (hw : 0 < w) : w * 101325 / (0.622 + w) < 101325 := by
  rw [div_lt_iff (by positivity)]
  nlinarith

lemma log_lt_six {e : ℝ} (h0 : 0 < e) (h1 : e < 101325) :
    Real.log (e / 611.2) < 6 := by
  rw [Real.log_lt_iff_lt_exp (by positivity)]
  have : e / 611.2 < 166 := by rw [div_lt_iff (by norm_num)]; nlinarith
  linarith [lt_exp_six]

lemma magnus_invers_at_sdp {T : ℝ} (hT : -243.5 < T) :
    magnus_invers (saettigungsdampfdruck T) = T := by
  unfold magnus_invers saettigungsdampfdruck
  have hden : 0 < T + 243.5 := by linarith
  have hlog : Real.log (611.2 * Real.exp ((17.67 * T) / (T + 243.5)) / 611.2) =
      (17.67 * T) / (T + 243.5) := by
    rw [mul_div_cancel_left₀ _ (by norm_num : (611.2 : ℝ) ≠ 0)]
    exact Real.log_exp _
  rw [hlog]
  have hden' : T + 243.5 ≠ 0 := ne_of_gt hden
  have hne : 17.67 - (17.67 * T) / (T + 243.5) = 17.67 * 243.5 / (T + 243.5) := by
    field_simp
    ring
  rw [hne]
  rw [div_eq_iff (by positivity : 17.67 * 243.5 / (T + 243.5) ≠ 0)]
  field_simp
  ring

lemma magnus_invers_strictMono {e1 e2 : ℝ} (h1 : 0 < e1) (h12 : e1 < e2)
    (h2 : e2 < 101325) : magnus_invers e1 < magnus_invers e2 := by
  unfold magnus_invers
  have hL12 : Real.log (e1 / 611.2) < Real.log (e2 / 611.2) := by
    apply Real.log_lt_log (by positivity)
    rw [div_lt_div_iff (by norm_num) (by norm_num)]
    nlinarith
  have hL2 : Real.log (e2 / 611.2) < 6 := log_lt_six (by linarith) h2
  have hd2 : 0 < 17.67 - Real.log (e2 / 611.2) := by linarith
  have hd1 : 0 < 17.67 - Real.log (e1 / 611.2) := by linarith
  rw [div_lt_div_iff hd1 hd2]
  nlinarith

lemma magnus_invers_lower {e : ℝ} (h0 : 0 < e) (h1 : e < 101325) :
    -243.5 < magnus_invers e := by
  unfold magnus_invers
  have hL : Real.log (e / 611.2) < 6 := log_lt_six h0 h1
  have hd : 0 < 17.67 - Real.log (e / 611.2) := by linarith
  rw [lt_div_iff hd]
  nlinarith

lemma taupunkt_lower (w : ℝ) : -243.5 < taupunkt_aus_abs_feuchte w := by
  rcases le_or_lt w 0 with hw | hw
  · rw [taupunkt_of_neg hw]; norm_num
  · rw [taupunkt_eq_magnus hw]
    exact magnus_invers_lower (E_pos hw) (E_lt_atm hw)

lemma taupunkt_of_vapor_pressure {e : ℝ} (h0 : 0 < e) (h1 : e < 101325) :
    taupunkt_aus_abs_feuchte (0.622 * e / (101325 - e)) = magnus_invers e := by
  rw [taupunkt_eq_magnus (w_of_e_pos h0 h1), e_of_w_inverse h0.le h1]

lemma taupunkt_le_of_le_sdp {T e : ℝ} (hT1 : -243.5 < T) (hT2 : T ≤ 45)
    (h0 : 0 < e) (hle : e ≤ saettigungsdampfdruck T) :
    taupunkt_aus_abs_feuchte (0.622 * e / (101325 - e)) ≤ T := by
  have hatm : saettigungsdampfdruck T < 101325 := sdp_lt_atm hT1 hT2
  rw [taupunkt_of_vapor_pressure h0 (lt_of_le_of_lt hle hatm)]
  rcases eq_or_lt_of_le hle with heq | hlt
  · rw [heq, magnus_invers_at_sdp hT1]
  · have := magnus_invers_strictMono h0 hlt hatm
    rw [magnus_invers_at_sdp hT1] at this
    exact this.le

/-! ### Branch characterizations of the process simulator -/

lemma prozess_dehum_reheat {ta fa tz fz w : ℝ} {entf : Bool}
    (hc : entf = true ∧ abs_feuchte_aus_rel_feuchte tz fz < abs_feuchte_aus_rel_feuchte ta fa)
    (hr : kuhltemperatur_fur_entfeuchtung (abs_feuchte_aus_rel_feuchte tz fz) 1 < tz) :
    berechne_rlt_prozess ta fa tz fz w entf =
      { schritte := schritte_wrg ta fa tz w ++
          [(Punkt.gekuehlt (kuhltemperatur_fur_entfeuchtung (abs_feuchte_aus_rel_feuchte tz fz) 1),
            berechne_luftzustand_abs
              (kuhltemperatur_fur_entfeuchtung (abs_feuchte_aus_rel_feuchte tz fz) 1)
              (abs_feuchte_aus_rel_feuchte tz fz)),
           (Punkt.nachheizung, berechne_luftzustand_abs tz (abs_feuchte_aus_rel_feuchte tz fz))]
        leistungen :=
          { kuehlung_entf :=
              enthalpie_feuchte_luft (aktuelle_temp_rlt ta tz w) (abs_feuchte_aus_rel_feuchte ta fa) -
                enthalpie_feuchte_luft
                  (kuhltemperatur_fur_entfeuchtung (abs_feuchte_aus_rel_feuchte tz fz) 1)
                  (abs_feuchte_aus_rel_feuchte tz fz)
            nachheizung :=
              enthalpie_feuchte_luft tz (abs_feuchte_aus_rel_feuchte tz fz) -
                enthalpie_feuchte_luft
                  (kuhltemperatur_fur_entfeuchtung (abs_feuchte_aus_rel_feuchte tz fz) 1)
                  (abs_feuchte_aus_rel_feuchte tz fz)
            heizung_direkt := 0
            kuehlung_direkt := 0 } } := by
  simp only [berechne_rlt_prozess]
  rw [if_pos hc, if_pos hr]

lemma prozess_dehum_noreheat {ta fa tz fz w : ℝ} {entf : Bool}
    (hc : entf = true ∧ abs_feuchte_aus_rel_feuchte tz fz < abs_feuchte_aus_rel_feuchte ta fa)
    (hr : ¬ kuhltemperatur_fur_entfeuchtung (abs_feuchte_aus_rel_feuchte tz fz) 1 < tz) :
    berechne_rlt_prozess ta fa tz fz w entf =
      { schritte := schritte_wrg ta fa tz w ++
          [(Punkt.gekuehlt (kuhltemperatur_fur_entfeuchtung (abs_feuchte_aus_rel_feuchte tz fz) 1),
            berechne_luftzustand_abs
              (kuhltemperatur_fur_entfeuchtung (abs_feuchte_aus_rel_feuchte tz fz) 1)
              (abs_feuchte_aus_rel_feuchte tz fz))]
        leistungen :=
          { kuehlung_entf :=
              enthalpie_feuchte_luft (aktuelle_temp_rlt ta tz w) (abs_feuchte_aus_rel_feuchte ta fa) -
                enthalpie_feuchte_luft
                  (kuhltemperatur_fur_entfeuchtung (abs_feuchte_aus_rel_feuchte tz fz) 1)
                  (abs_feuchte_aus_rel_feuchte tz fz)
            nachheizung := 0
            heizung_direkt := 0
            kuehlung_direkt := 0 } } := by
  simp only [berechne_rlt_prozess]
  rw [if_pos hc, if_neg hr]

lemma prozess_erwaermung {ta fa tz fz w : ℝ} {entf : Bool}
    (hc : ¬ (entf = true ∧ abs_feuchte_aus_rel_feuchte tz fz < abs_feuchte_aus_rel_feuchte ta fa))
    (hT : aktuelle_temp_rlt ta tz w < tz) :
    berechne_rlt_prozess ta fa tz fz w entf =
      { schritte := schritte_wrg ta fa tz w ++
          [(Punkt.erwaermung, berechne_luftzustand_abs tz (abs_feuchte_aus_rel_feuchte ta fa))]
        leistungen :=
          { kuehlung_entf := 0
            nachheizung := 0
            heizung_direkt :=
              enthalpie_feuchte_luft tz (abs_feuchte_aus_rel_feuchte ta fa) -
                enthalpie_feuchte_luft (aktuelle_temp_rlt ta tz w) (abs_feuchte_aus_rel_feuchte ta fa)
            kuehlung_direkt := 0 } } := by
  simp only [berechne_rlt_prozess]
  rw [if_neg hc, if_pos hT]

lemma prozess_kuehlung {ta fa tz fz w : ℝ} {entf : Bool}
    (hc : ¬ (entf = true ∧ abs_feuchte_aus_rel_feuchte tz fz < abs_feuchte_aus_rel_feuchte ta fa))
    (hT1 : ¬ aktuelle_temp_rlt ta tz w < tz) (hT2 : tz < aktuelle_temp_rlt ta tz w) :
    berechne_rlt_prozess ta fa tz fz w entf =
      { schritte := schritte_wrg ta fa tz w ++
          [(Punkt.kuehlung, berechne_luftzustand_abs tz (abs_feuchte_aus_rel_feuchte ta fa))]
        leistungen :=
          { kuehlung_entf := 0
            nachheizung := 0
            heizung_direkt := 0
            kuehlung_direkt :=
              enthalpie_feuchte_luft (aktuelle_temp_rlt ta tz w) (abs_feuchte_aus_rel_feuchte ta fa) -
                enthalpie_feuchte_luft tz (abs_feuchte_aus_rel_feuchte ta fa) } } := by
  simp only [berechne_rlt_prozess]
  rw [if_neg hc, if_neg hT1, if_pos hT2]

lemma prozess_passthrough {ta fa tz fz w : ℝ} {entf : Bool}
    (hc : ¬ (entf = true ∧ abs_feuchte_aus_rel_feuchte tz fz < abs_feuchte_aus_rel_feuchte ta fa))
    (hT1 : ¬ aktuelle_temp_rlt ta tz w < tz) (hT2 : ¬ tz < aktuelle_temp_rlt ta tz w) :
    berechne_rlt_prozess ta fa tz fz w entf =
      { schritte := schritte_wrg ta fa tz w
        leistungen :=
          { kuehlung_entf := 0
            nachheizung := 0
            heizung_direkt := 0
            kuehlung_direkt := 0 } } := by
  simp only [berechne_rlt_prozess]
  rw [if_neg hc, if_neg hT1, if_neg hT2]

/-! ### Claim theorems -/

/-- C6, counterexample: at temperature 1 °C and humidity ratio 0 the source
enthalpy function returns 1005 (J/kg, coefficient 1005), which is neither the
claimed kJ/kg value `1.006·1 + 0·(2501 + 1.86·1) = 1.006` nor that value with
all coefficients multiplied by 1000 (`1006`). -/
theorem C6_enthalpy_coeff_counterexample :
    enthalpie_feuchte_luft 1 0 ≠ 1.006 * 1 + 0 * (2501 + 1.86 * 1) ∧
      enthalpie_feuchte_luft 1 0 ≠ 1000 * (1.006 * 1 + 0 * (2501 + 1.86 * 1)) := by
  unfold enthalpie_feuchte_luft
  norm_num

/-- C6, amended: the enthalpy function computes `1005·T + w·(2501000 + 1870·T)`
in J/kg dry air (i.e. coefficients 1.005, 2501, 1.87 in kJ/kg), and this J/kg
convention is held consistently across the core: the air-state enthalpy shown
by `berechne_luftzustand` is exactly this value divided by 1000 (kJ/kg,
rounded to one decimal). -/
theorem C6_enthalpy_formula :
    (∀ T w : ℝ, enthalpie_feuchte_luft T w = 1005 * T + w * (2501000 + 1870 * T)) ∧
      (∀ T w : ℝ, (berechne_luftzustand_abs T w).enthalpie =
        pyround 1 (enthalpie_feuchte_luft T w / 1000)) ∧
      (∀ T rf : ℝ, (berechne_luftzustand_rel T rf).enthalpie =
        pyround 1 (enthalpie_feuchte_luft T (abs_feuchte_aus_rel_feuchte T rf) / 1000)) :=
  ⟨fun _ _ => rfl, fun _ _ => rfl, fun _ _ => rfl⟩

/-- C7: the saturation vapor pressure function (Magnus formula
`611.2·exp(17.67·T/(T+243.5))`) is strictly increasing on the valid range:
for `-20 ≤ T1 < T2 ≤ 45` it holds that
`saettigungsdampfdruck T1 < saettigungsdampfdruck T2`. -/
theorem C7_sdp_strictMono (T1 T2 : ℝ) (h1 : -20 ≤ T1) (h12 : T1 < T2) (h2 : T2 ≤ 45) :
    saettigungsdampfdruck T1 < saettigungsdampfdruck T2 :=
  sdp_strictMono (by linarith) h12

/-- Witness for C7 at the concrete pair `T1 = 0`, `T2 = 10`. -/
theorem C7_sdp_strictMono_witness :
    -20 ≤ (0 : ℝ) ∧ (0 : ℝ) < 10 ∧ (10 : ℝ) ≤ 45 ∧
      saettigungsdampfdruck 0 < saettigungsdampfdruck 10 :=
  ⟨by norm_num, by norm_num, by norm_num,
    C7_sdp_strictMono 0 10 (by norm_num) (by norm_num) (by norm_num)⟩

/-- C9: the dew-point function returns the fixed sentinel `-50` °C for every
humidity ratio `w ≤ 0` (no error is raised or propagated), and for `w > 0` it
computes the Magnus inversion `243.5·ln(e/611.2) / (17.67 − ln(e/611.2))` with
`e = w·101325/(0.622 + w)`. -/
theorem C9_taupunkt_sentinel (w : ℝ) :
    (w ≤ 0 → taupunkt_aus_abs_feuchte w = -50) ∧
      (0 < w → taupunkt_aus_abs_feuchte w =
        243.5 * Real.log (w * 101325 / (0.622 + w) / 611.2) /
          (17.67 - Real.log (w * 101325 / (0.622 + w) / 611.2))) :=
  ⟨taupunkt_of_neg, fun hw => by rw [taupunkt_eq_magnus hw]; rfl⟩

/-- Witness for C9 at `w = -1` (sentinel branch) and `w = 0.01` (Magnus
branch). -/
theorem C9_taupunkt_sentinel_witness :
    taupunkt_aus_abs_feuchte (-1) = -50 ∧
      taupunkt_aus_abs_feuchte 0.01 =
        243.5 * Real.log (0.01 * 101325 / (0.622 + 0.01) / 611.2) /
          (17.67 - Real.log (0.01 * 101325 / (0.622 + 0.01) / 611.2)) :=
  ⟨(C9_taupunkt_sentinel (-1)).1 (by norm_num),
    (C9_taupunkt_sentinel 0.01).2 (by norm_num)⟩

/-- C2: for `T ∈ [-20, 45]` and `rh ∈ [0, 100]`, converting relative humidity
to the humidity ratio and back recovers `rh`; in the real-number model the
round trip is exact, hence in particular within the claimed `1e-6` relative
tolerance. -/
theorem C2_roundtrip (T rh : ℝ) (hT1 : -20 ≤ T) (hT2 : T ≤ 45)
    (hr0 : 0 ≤ rh) (hr1 : rh ≤ 100) :
    rel_feuchte_aus_abs_feuchte T (abs_feuchte_aus_rel_feuchte T rh) = rh ∧
      |rel_feuchte_aus_abs_feuchte T (abs_feuchte_aus_rel_feuchte T rh) - rh| ≤
        1e-6 * rh := by
  have hs := sdp_pos T
  obtain ⟨he0, _, helt⟩ := vapor_pressure_range (by linarith) hT2 hr0 hr1
  have key : rel_feuchte_aus_abs_feuchte T (abs_feuchte_aus_rel_feuchte T rh) = rh := by
    unfold rel_feuchte_aus_abs_feuchte abs_feuchte_aus_rel_feuchte
    rw [e_of_w_inverse he0 helt]
    have hdiv : rh / 100 * saettigungsdampfdruck T / saettigungsdampfdruck T * 100 = rh := by
      field_simp
      ring
    rw [hdiv, min_eq_right hr1]
  refine ⟨key, ?_⟩
  rw [key, sub_self, abs_zero]
  positivity

/-- Witness for C2 at `T = 20`, `rh = 50`. -/
theorem C2_roundtrip_witness :
    (-20 ≤ (20 : ℝ) ∧ (20 : ℝ) ≤ 45 ∧ 0 ≤ (50 : ℝ) ∧ (50 : ℝ) ≤ 100) ∧
      rel_feuchte_aus_abs_feuchte 20 (abs_feuchte_aus_rel_feuchte 20 50) = 50 :=
  ⟨by norm_num,
    (C2_roundtrip 20 50 (by norm_num) (by norm_num) (by norm_num) (by norm_num)).1⟩

lemma aktuelle_temp_rlt_zero (ta tz : ℝ) : aktuelle_temp_rlt ta tz 0 = ta := by
  unfold aktuelle_temp_rlt
  rw [if_neg (lt_irrefl 0)]

lemma aktuelle_temp_rlt_ge_min {ta tz η : ℝ} (h0 : 0 ≤ η) (h1 : η ≤ 0.95) :
    min ta tz ≤ aktuelle_temp_rlt ta tz η := by
  unfold aktuelle_temp_rlt temp_nach_wrg
  split_ifs with h
  · rcases le_total ta tz with hle | hle
    · rw [min_eq_left hle]; nlinarith
    · rw [min_eq_right hle]; nlinarith
  · exact min_le_left _ _

/-- C8: for outdoor 30 °C / 40 % RH, target 20 °C, heating-only mode, no heat
recovery (and any target-humidity input, which this branch ignores): the
direct-heating stage is 0 and the direct-cooling stage equals
`enthalpie(30, w) − enthalpie(20, w) > 0` for the outdoor humidity ratio `w`. -/
theorem C8_heating_only_hot_outdoor (fz : ℝ) :
    (berechne_rlt_prozess 30 40 20 fz 0 false).leistungen.heizung_direkt = 0 ∧
      (berechne_rlt_prozess 30 40 20 fz 0 false).leistungen.kuehlung_direkt =
        enthalpie_feuchte_luft 30 (abs_feuchte_aus_rel_feuchte 30 40) -
          enthalpie_feuchte_luft 20 (abs_feuchte_aus_rel_feuchte 30 40) ∧
      0 < (berechne_rlt_prozess 30 40 20 fz 0 false).leistungen.kuehlung_direkt := by
  have hw0 : 0 ≤ abs_feuchte_aus_rel_feuchte 30 40 :=
    abs_feuchte_nonneg (by norm_num) (by norm_num) (by norm_num) (by norm_num)
  have hc : ¬((false : Bool) = true ∧
      abs_feuchte_aus_rel_feuchte 20 fz < abs_feuchte_aus_rel_feuchte 30 40) := by
    rintro ⟨h, -⟩
    exact Bool.false_ne_true h
  have hT1 : ¬ aktuelle_temp_rlt 30 20 0 < 20 := by
    rw [aktuelle_temp_rlt_zero]; norm_num
  have hT2 : (20 : ℝ) < aktuelle_temp_rlt 30 20 0 := by
    rw [aktuelle_temp_rlt_zero]; norm_num
  rw [prozess_kuehlung hc hT1 hT2]
  dsimp only
  refine ⟨rfl, ?_, ?_⟩
  · rw [aktuelle_temp_rlt_zero]
  · rw [aktuelle_temp_rlt_zero]
    unfold enthalpie_feuchte_luft
    nlinarith

lemma prozess_schritte_decomp (ta fa tz fz w : ℝ) (entf : Bool) :
    ∃ extra, (berechne_rlt_prozess ta fa tz fz w entf).schritte =
      schritte_wrg ta fa tz w ++ extra ∧
      ∀ s ∈ extra, s.1 ≠ Punkt.aussenluft ∧ s.1 ≠ Punkt.nachWRG := by
  by_cases hc : entf = true ∧
      abs_feuchte_aus_rel_feuchte tz fz < abs_feuchte_aus_rel_feuchte ta fa
  · by_cases hr : kuhltemperatur_fur_entfeuchtung (abs_feuchte_aus_rel_feuchte tz fz) 1 < tz
    · rw [prozess_dehum_reheat hc hr]
      refine ⟨_, rfl, ?_⟩
      intro s hs
      simp only [List.mem_cons, List.not_mem_nil, or_false] at hs
      rcases hs with rfl | rfl
      · exact ⟨by simp, by simp⟩
      · exact ⟨by simp, by simp⟩
    · rw [prozess_dehum_noreheat hc hr]
      refine ⟨_, rfl, ?_⟩
      intro s hs
      simp only [List.mem_cons, List.not_mem_nil, or_false] at hs
      subst hs
      exact ⟨by simp, by simp⟩
  · by_cases h1 : aktuelle_temp_rlt ta tz w < tz
    · rw [prozess_erwaermung hc h1]
      refine ⟨_, rfl, ?_⟩
      intro s hs
      simp only [List.mem_cons, List.not_mem_nil, or_false] at hs
      subst hs
      exact ⟨by simp, by simp⟩
    · by_cases h2 : tz < aktuelle_temp_rlt ta tz w
      · rw [prozess_kuehlung hc h1 h2]
        refine ⟨_, rfl, ?_⟩
        intro s hs
        simp only [List.mem_cons, List.not_mem_nil, or_false] at hs
        subst hs
        exact ⟨by simp, by simp⟩
      · rw [prozess_passthrough hc h1 h2]
        exact ⟨[], (List.append_nil _).symm, by intro s hs; cases hs⟩

/-- C5: the heat-recovery step appears iff `wrg_grad > 0`; when it does, the
appended state is constructed at the temperature
`temp_aussen + (temp_zuluft − temp_aussen)·wrg_grad` with the outdoor humidity
ratio unchanged; with `wrg_grad ≤ 0` no Nach-WRG step appears anywhere in the
step list; and with effectiveness 1 the post-recovery pipeline temperature
equals the target supply temperature exactly. -/
theorem C5_wrg_boundary (ta fa tz fz w : ℝ) (entf : Bool) :
    (0 < w → ∃ rest, (berechne_rlt_prozess ta fa tz fz w entf).schritte =
      (Punkt.aussenluft, berechne_luftzustand_rel ta fa) ::
        (Punkt.nachWRG, berechne_luftzustand_abs (ta + (tz - ta) * w)
          (abs_feuchte_aus_rel_feuchte ta fa)) :: rest) ∧
      (¬ 0 < w → ∀ s ∈ (berechne_rlt_prozess ta fa tz fz w entf).schritte,
        s.1 ≠ Punkt.nachWRG) ∧
      (w = 1 → aktuelle_temp_rlt ta tz w = tz) := by
  obtain ⟨extra, hdec, hextra⟩ := prozess_schritte_decomp ta fa tz fz w entf
  refine ⟨?_, ?_, ?_⟩
  · intro hw
    refine ⟨extra, ?_⟩
    rw [hdec]
    unfold schritte_wrg
    rw [if_pos hw]
    rfl
  · intro hw s hs
    rw [hdec] at hs
    rcases List.mem_append.1 hs with h | h
    · unfold schritte_wrg at h
      rw [if_neg hw] at h
      simp only [List.mem_cons, List.not_mem_nil, or_false] at h
      subst h
      simp
    · exact (hextra s h).2
  · intro hw
    rw [hw]
    unfold aktuelle_temp_rlt temp_nach_wrg
    rw [if_pos one_pos]
    ring

/-- Witness for C5: heat recovery at effectiveness 0.7 inserts the Nach-WRG
step, at 0 it does not, and at effectiveness 1 the pipeline temperature after
recovery equals the 20 °C target. -/
theorem C5_wrg_boundary_witness :
    (∃ rest, (berechne_rlt_prozess 8 65 20 45 0.7 false).schritte =
      (Punkt.aussenluft, berechne_luftzustand_rel 8 65) ::
        (Punkt.nachWRG, berechne_luftzustand_abs (8 + (20 - 8) * 0.7)
          (abs_feuchte_aus_rel_feuchte 8 65)) :: rest) ∧
      (∀ s ∈ (berechne_rlt_prozess 8 65 20 45 0 false).schritte,
        s.1 ≠ Punkt.nachWRG) ∧
      aktuelle_temp_rlt 8 20 1 = 20 :=
  ⟨(C5_wrg_boundary 8 65 20 45 0.7 false).1 (by norm_num),
    (C5_wrg_boundary 8 65 20 45 0 false).2.1 (by norm_num),
    (C5_wrg_boundary 8 20 20 45 1 false).2.2 rfl⟩

/-- C4, counterexample: at a configuration with heat-recovery effectiveness
0.7 > 0 the stage-powers mapping contains no `heat_recovery_gain` entry at
all — recovered energy is never recorded among the stage powers. -/
theorem C4_no_heat_recovery_stage_counterexample :
    0 < (0.7 : ℝ) ∧
      ¬ ∃ v, ("heat_recovery_gain", v) ∈
        leistungenMap (berechne_rlt_prozess 8 65 20 45 0.7 false).leistungen := by
  refine ⟨by norm_num, ?_⟩
  rintro ⟨v, hv⟩
  simp only [leistungenMap, List.mem_cons, List.not_mem_nil, or_false] at hv
  rcases hv with h | h | h | h <;>
    exact absurd (congrArg Prod.fst h) (by simp)

/-- C4, amended: for every configuration (in particular whenever
`wrg_grad > 0`) the stage-powers mapping consists of exactly the four
treatment stages `kuehlung_entf`, `nachheizung`, `heizung_direkt`,
`kuehlung_direkt`; there is never a `heat_recovery_gain` stage — the
heat-recovery effect shows up only as the Nach-WRG state in the step list,
not as a stage power. -/
theorem C4_stage_enum (ta fa tz fz w : ℝ) (entf : Bool) (hw : 0 < w) :
    (leistungenMap (berechne_rlt_prozess ta fa tz fz w entf).leistungen).map
        Prod.fst =
      ["kuehlung_entf", "nachheizung", "heizung_direkt", "kuehlung_direkt"] ∧
      ∀ p ∈ leistungenMap (berechne_rlt_prozess ta fa tz fz w entf).leistungen,
        p.1 ≠ "heat_recovery_gain" := by
  refine ⟨rfl, ?_⟩
  intro p hp
  simp only [leistungenMap, List.mem_cons, List.not_mem_nil, or_false] at hp
  rcases hp with rfl | rfl | rfl | rfl <;> simp

/-- Witness for C4's amended claim at a configuration with effectiveness
0.7 > 0. -/
theorem C4_stage_enum_witness :
    (leistungenMap (berechne_rlt_prozess 8 65 20 45 0.7 false).leistungen).map
        Prod.fst =
      ["kuehlung_entf", "nachheizung", "heizung_direkt", "kuehlung_direkt"] :=
  (C4_stage_enum 8 65 20 45 0.7 false (by norm_num)).1

lemma w_5_lt_20 : abs_feuchte_aus_rel_feuchte 5 50 < abs_feuchte_aus_rel_feuchte 20 50 := by
  have hmono := sdp_strictMono (show (-243.5 : ℝ) < 5 by norm_num) (show (5 : ℝ) < 20 by norm_num)
  obtain ⟨h50, -, -⟩ := vapor_pressure_range (show (-243.5 : ℝ) < 5 by norm_num)
    (show (5 : ℝ) ≤ 45 by norm_num) (show (0 : ℝ) ≤ 50 by norm_num)
    (show (50 : ℝ) ≤ 100 by norm_num)
  obtain ⟨-, -, h20lt⟩ := vapor_pressure_range (show (-243.5 : ℝ) < 20 by norm_num)
    (show (20 : ℝ) ≤ 45 by norm_num) (show (0 : ℝ) ≤ 50 by norm_num)
    (show (50 : ℝ) ≤ 100 by norm_num)
  unfold abs_feuchte_aus_rel_feuchte
  exact w_of_e_strictMono h50 (by nlinarith) h20lt

lemma schritte_wrg_punkte (ta fa tz w : ℝ) :
    ∀ s ∈ schritte_wrg ta fa tz w, s.1 = Punkt.aussenluft ∨ s.1 = Punkt.nachWRG := by
  intro s hs
  unfold schritte_wrg at hs
  split_ifs at hs
  · simp only [List.mem_cons, List.not_mem_nil, or_false] at hs
    rcases hs with rfl | rfl
    · exact Or.inl rfl
    · exact Or.inr rfl
  · simp only [List.mem_cons, List.not_mem_nil, or_false] at hs
    subst hs
    exact Or.inl rfl

/-- C3, counterexample: outdoor 5 °C / 50 % RH, target 20 °C / 50 % RH, no
heat recovery, dehumidify mode.  The humidity ratio does not exceed the
target, yet the air does not pass through unchanged: a direct-heating step is
appended (step list has length 2) and `heizung_direkt > 0`. -/
theorem C3_noop_dehum_counterexample :
    abs_feuchte_aus_rel_feuchte 5 50 ≤ abs_feuchte_aus_rel_feuchte 20 50 ∧
      (berechne_rlt_prozess 5 50 20 50 0 true).schritte.length = 2 ∧
      (∃ s ∈ (berechne_rlt_prozess 5 50 20 50 0 true).schritte,
        s.1 = Punkt.erwaermung) ∧
      0 < (berechne_rlt_prozess 5 50 20 50 0 true).leistungen.heizung_direkt := by
  have hlt := w_5_lt_20
  have hc : ¬((true : Bool) = true ∧
      abs_feuchte_aus_rel_feuchte 20 50 < abs_feuchte_aus_rel_feuchte 5 50) := by
    rintro ⟨-, h⟩
    linarith
  have hT : aktuelle_temp_rlt 5 20 0 < 20 := by
    rw [aktuelle_temp_rlt_zero]; norm_num
  have hw0 : 0 ≤ abs_feuchte_aus_rel_feuchte 5 50 :=
    abs_feuchte_nonneg (by norm_num) (by norm_num) (by norm_num) (by norm_num)
  rw [prozess_erwaermung hc hT]
  dsimp only
  refine ⟨hlt.le, ?_, ?_, ?_⟩
  · unfold schritte_wrg
    rw [if_neg (lt_irrefl 0)]
    rfl
  · exact ⟨(Punkt.erwaermung, berechne_luftzustand_abs 20
      (abs_feuchte_aus_rel_feuchte 5 50)), by simp, rfl⟩
  · rw [aktuelle_temp_rlt_zero]
    unfold enthalpie_feuchte_luft
    nlinarith

/-- C3, amended: in dehumidify mode, when the (heat-recovery-invariant)
humidity ratio does not exceed the target humidity ratio, the
dehumidification-cooling and reheat energies are 0 and no cooling/reheat step
is appended — but the air does not simply pass through: the run coincides
exactly with the heating-only run on the same inputs, i.e. the simulator
falls through to direct heating/cooling toward the target temperature. -/
theorem C3_noop_dehum_amended (ta fa tz fz w : ℝ)
    (hw : abs_feuchte_aus_rel_feuchte ta fa ≤ abs_feuchte_aus_rel_feuchte tz fz) :
    berechne_rlt_prozess ta fa tz fz w true = berechne_rlt_prozess ta fa tz fz w false ∧
      (berechne_rlt_prozess ta fa tz fz w true).leistungen.kuehlung_entf = 0 ∧
      (berechne_rlt_prozess ta fa tz fz w true).leistungen.nachheizung = 0 ∧
      ∀ s ∈ (berechne_rlt_prozess ta fa tz fz w true).schritte,
        (∀ t, s.1 ≠ Punkt.gekuehlt t) ∧ s.1 ≠ Punkt.nachheizung := by
  have hct : ¬((true : Bool) = true ∧
      abs_feuchte_aus_rel_feuchte tz fz < abs_feuchte_aus_rel_feuchte ta fa) := by
    rintro ⟨-, h⟩
    linarith
  have hcf : ¬((false : Bool) = true ∧
      abs_feuchte_aus_rel_feuchte tz fz < abs_feuchte_aus_rel_feuchte ta fa) := by
    rintro ⟨h, -⟩
    exact Bool.false_ne_true h
  have base : ∀ s ∈ schritte_wrg ta fa tz w,
      (∀ t, s.1 ≠ Punkt.gekuehlt t) ∧ s.1 ≠ Punkt.nachheizung := by
    intro s hs
    rcases schritte_wrg_punkte ta fa tz w s hs with h | h <;> rw [h] <;>
      exact ⟨fun t => by simp, by simp⟩
  rcases lt_trichotomy (aktuelle_temp_rlt ta tz w) tz with h1 | h1 | h1
  · rw [prozess_erwaermung hct h1, prozess_erwaermung hcf h1]
    refine ⟨rfl, rfl, rfl, ?_⟩
    intro s hs
    rcases List.mem_append.1 hs with h | h
    · exact base s h
    · simp only [List.mem_cons, List.not_mem_nil, or_false] at h
      subst h
      exact ⟨fun t => by simp, by simp⟩
  · have hT1 : ¬ aktuelle_temp_rlt ta tz w < tz := by rw [h1]; exact lt_irrefl tz
    have hT2 : ¬ tz < aktuelle_temp_rlt ta tz w := by rw [h1]; exact lt_irrefl tz
    rw [prozess_passthrough hct hT1 hT2, prozess_passthrough hcf hT1 hT2]
    exact ⟨rfl, rfl, rfl, base⟩
  · have hT1 : ¬ aktuelle_temp_rlt ta tz w < tz := not_lt.2 h1.le
    rw [prozess_kuehlung hct hT1 h1, prozess_kuehlung hcf hT1 h1]
    refine ⟨rfl, rfl, rfl, ?_⟩
    intro s hs
    rcases List.mem_append.1 hs with h | h
    · exact base s h
    · simp only [List.mem_cons, List.not_mem_nil, or_false] at h
      subst h
      exact ⟨fun t => by simp, by simp⟩

/-- Witness for C3's amended claim at outdoor 5 °C / 50 % RH, target
20 °C / 50 % RH, no heat recovery, dehumidify mode. -/
theorem C3_noop_dehum_amended_witness :
    berechne_rlt_prozess 5 50 20 50 0 true = berechne_rlt_prozess 5 50 20 50 0 false ∧
      (berechne_rlt_prozess 5 50 20 50 0 true).leistungen.kuehlung_entf = 0 :=
  ⟨(C3_noop_dehum_amended 5 50 20 50 0 w_5_lt_20.le).1,
    (C3_noop_dehum_amended 5 50 20 50 0 w_5_lt_20.le).2.1⟩

/-- Stage energies recomputed directly from the unrounded pipeline variables
(the raw temperatures and humidity ratios, in J/kg), with no air-state
construction and hence no display rounding; stated per the spec sentence that
stage energies are computed from the unrounded internal values.  Comparing
`berechne_rlt_prozess` against this shows the reported stage energies are
independent of the rounding applied to the states in `schritte`. -/
noncomputable def leistungen_unrounded (ta fa tz fz w : ℝ) (entf : Bool) : Leistungen :=
  if entf = true ∧ abs_feuchte_aus_rel_feuchte tz fz < abs_feuchte_aus_rel_feuchte ta fa then
    if kuhltemperatur_fur_entfeuchtung (abs_feuchte_aus_rel_feuchte tz fz) 1 < tz then
      { kuehlung_entf :=
          enthalpie_feuchte_luft (aktuelle_temp_rlt ta tz w) (abs_feuchte_aus_rel_feuchte ta fa) -
            enthalpie_feuchte_luft
              (kuhltemperatur_fur_entfeuchtung (abs_feuchte_aus_rel_feuchte tz fz) 1)
              (abs_feuchte_aus_rel_feuchte tz fz)
        nachheizung :=
          enthalpie_feuchte_luft tz (abs_feuchte_aus_rel_feuchte tz fz) -
            enthalpie_feuchte_luft
              (kuhltemperatur_fur_entfeuchtung (abs_feuchte_aus_rel_feuchte tz fz) 1)
              (abs_feuchte_aus_rel_feuchte tz fz)
        heizung_direkt := 0
        kuehlung_direkt := 0 }
    else
      { kuehlung_entf :=
          enthalpie_feuchte_luft (aktuelle_temp_rlt ta tz w) (abs_feuchte_aus_rel_feuchte ta fa) -
            enthalpie_feuchte_luft
              (kuhltemperatur_fur_entfeuchtung (abs_feuchte_aus_rel_feuchte tz fz) 1)
              (abs_feuchte_aus_rel_feuchte tz fz)
        nachheizung := 0
        heizung_direkt := 0
        kuehlung_direkt := 0 }
  else if aktuelle_temp_rlt ta tz w < tz then
    { kuehlung_entf := 0
      nachheizung := 0
      heizung_direkt :=
        enthalpie_feuchte_luft tz (abs_feuchte_aus_rel_feuchte ta fa) -
          enthalpie_feuchte_luft (aktuelle_temp_rlt ta tz w) (abs_feuchte_aus_rel_feuchte ta fa)
      kuehlung_direkt := 0 }
  else if tz < aktuelle_temp_rlt ta tz w then
    { kuehlung_entf := 0
      nachheizung := 0
      heizung_direkt := 0
      kuehlung_direkt :=
        enthalpie_feuchte_luft (aktuelle_temp_rlt ta tz w) (abs_feuchte_aus_rel_feuchte ta fa) -
          enthalpie_feuchte_luft tz (abs_feuchte_aus_rel_feuchte ta fa) }
  else
    { kuehlung_entf := 0, nachheizung := 0, heizung_direkt := 0, kuehlung_direkt := 0 }

lemma schritte_wrg_forms (ta fa tz w : ℝ) :
    ∀ s ∈ schritte_wrg ta fa tz w,
      (∃ T rf, s.2 = berechne_luftzustand_rel T rf) ∨
        (∃ T wx, s.2 = berechne_luftzustand_abs T wx) := by
  intro s hs
  unfold schritte_wrg at hs
  split_ifs at hs <;>
    simp only [List.mem_cons, List.not_mem_nil, or_false] at hs
  · rcases hs with rfl | rfl
    · exact Or.inl ⟨ta, fa, rfl⟩
    · exact Or.inr ⟨_, _, rfl⟩
  · subst hs
    exact Or.inl ⟨ta, fa, rfl⟩

lemma prozess_schritte_forms (ta fa tz fz w : ℝ) (entf : Bool) :
    ∀ s ∈ (berechne_rlt_prozess ta fa tz fz w entf).schritte,
      (∃ T rf, s.2 = berechne_luftzustand_rel T rf) ∨
        (∃ T wx, s.2 = berechne_luftzustand_abs T wx) := by
  intro s hs
  by_cases hc : entf = true ∧
      abs_feuchte_aus_rel_feuchte tz fz < abs_feuchte_aus_rel_feuchte ta fa
  · by_cases hr : kuhltemperatur_fur_entfeuchtung (abs_feuchte_aus_rel_feuchte tz fz) 1 < tz
    · rw [prozess_dehum_reheat hc hr] at hs
      rcases List.mem_append.1 hs with h | h
      · exact schritte_wrg_forms ta fa tz w s h
      · simp only [List.mem_cons, List.not_mem_nil, or_false] at h
        rcases h with rfl | rfl
        · exact Or.inr ⟨_, _, rfl⟩
        · exact Or.inr ⟨_, _, rfl⟩
    · rw [prozess_dehum_noreheat hc hr] at hs
      rcases List.mem_append.1 hs with h | h
      · exact schritte_wrg_forms ta fa tz w s h
      · simp only [List.mem_cons, List.not_mem_nil, or_false] at h
        subst h
        exact Or.inr ⟨_, _, rfl⟩
  · by_cases h1 : aktuelle_temp_rlt ta tz w < tz
    · rw [prozess_erwaermung hc h1] at hs
      rcases List.mem_append.1 hs with h | h
      · exact schritte_wrg_forms ta fa tz w s h
      · simp only [List.mem_cons, List.not_mem_nil, or_false] at h
        subst h
        exact Or.inr ⟨_, _, rfl⟩
    · by_cases h2 : tz < aktuelle_temp_rlt ta tz w
      · rw [prozess_kuehlung hc h1 h2] at hs
        rcases List.mem_append.1 hs with h | h
        · exact schritte_wrg_forms ta fa tz w s h
        · simp only [List.mem_cons, List.not_mem_nil, or_false] at h
          subst h
          exact Or.inr ⟨_, _, rfl⟩
      · rw [prozess_passthrough hc h1 h2] at hs
        exact schritte_wrg_forms ta fa tz w s hs

/-- C10: every air state carries display-rounded, rescaled values
(temperature, relative humidity and dew point to 1 decimal; humidity ratio in
g/kg to 2 decimals; enthalpy in kJ/kg to 1 decimal), every entry of the
simulator's step list is such a state, and the simulator's stage energies
coincide with the energies recomputed from the unrounded internal
temperatures and humidity ratios in J/kg — so they are independent of the
rounding applied to the states in `schritte`. -/
theorem C10_rounding_discipline :
    (∀ T rf : ℝ, berechne_luftzustand_rel T rf =
      { temperatur := pyround 1 T
        rel_feuchte := pyround 1 rf
        abs_feuchte := pyround 2 (abs_feuchte_aus_rel_feuchte T rf * 1000)
        enthalpie := pyround 1
          (enthalpie_feuchte_luft T (abs_feuchte_aus_rel_feuchte T rf) / 1000)
        taupunkt := pyround 1
          (taupunkt_aus_abs_feuchte (abs_feuchte_aus_rel_feuchte T rf)) }) ∧
      (∀ T wx : ℝ, berechne_luftzustand_abs T wx =
        { temperatur := pyround 1 T
          rel_feuchte := pyround 1 (rel_feuchte_aus_abs_feuchte T wx)
          abs_feuchte := pyround 2 (wx * 1000)
          enthalpie := pyround 1 (enthalpie_feuchte_luft T wx / 1000)
          taupunkt := pyround 1 (taupunkt_aus_abs_feuchte wx) }) ∧
      (∀ (ta fa tz fz w : ℝ) (entf : Bool),
        ∀ s ∈ (berechne_rlt_prozess ta fa tz fz w entf).schritte,
          (∃ T rf, s.2 = berechne_luftzustand_rel T rf) ∨
            (∃ T wx, s.2 = berechne_luftzustand_abs T wx)) ∧
      (∀ (ta fa tz fz w : ℝ) (entf : Bool),
        (berechne_rlt_prozess ta fa tz fz w entf).leistungen =
          leistungen_unrounded ta fa tz fz w entf) := by
  refine ⟨fun _ _ => rfl, fun _ _ => rfl, prozess_schritte_forms, ?_⟩
  intro ta fa tz fz w entf
  unfold leistungen_unrounded
  by_cases hc : entf = true ∧
      abs_feuchte_aus_rel_feuchte tz fz < abs_feuchte_aus_rel_feuchte ta fa
  · by_cases hr : kuhltemperatur_fur_entfeuchtung (abs_feuchte_aus_rel_feuchte tz fz) 1 < tz
    · rw [prozess_dehum_reheat hc hr, if_pos hc, if_pos hr]
    · rw [prozess_dehum_noreheat hc hr, if_pos hc, if_neg hr]
  · by_cases h1 : aktuelle_temp_rlt ta tz w < tz
    · rw [prozess_erwaermung hc h1, if_neg hc, if_pos h1]
    · by_cases h2 : tz < aktuelle_temp_rlt ta tz w
      · rw [prozess_kuehlung hc h1 h2, if_neg hc, if_neg h1, if_pos h2]
      · rw [prozess_passthrough hc h1 h2, if_neg hc, if_neg h1, if_neg h2]

lemma enthalpie_diff_nonneg {T1 T2 wx : ℝ} (hw : 0 ≤ wx) (hT : T1 ≤ T2) :
    0 ≤ enthalpie_feuchte_luft T2 wx - enthalpie_feuchte_luft T1 wx := by
  unfold enthalpie_feuchte_luft
  nlinarith [mul_nonneg hw (sub_nonneg.2 hT)]

lemma enthalpie_dehum_nonneg {Tcur Tk wa wz : ℝ} (hwa : 0 ≤ wa) (hwz : wz ≤ wa)
    (hTk : Tk ≤ Tcur) (hTk2 : -244.5 < Tk) :
    0 ≤ enthalpie_feuchte_luft Tcur wa - enthalpie_feuchte_luft Tk wz := by
  have key1 : 0 ≤ (1005 + 1870 * wa) * (Tcur - Tk) :=
    mul_nonneg (by linarith) (by linarith)
  have key2 : 0 ≤ (wa - wz) * (2501000 + 1870 * Tk) :=
    mul_nonneg (by linarith) (by linarith)
  unfold enthalpie_feuchte_luft
  nlinarith [key1, key2]

lemma abs_feuchte_mono_e {t1 r1 t2 r2 : ℝ} (h1 : -243.5 < t1) (h1b : t1 ≤ 45)
    (hr1 : 0 ≤ r1) (hr1b : r1 ≤ 100) (h2 : -243.5 < t2) (h2b : t2 ≤ 45)
    (hr2 : 0 ≤ r2) (hr2b : r2 ≤ 100)
    (hlt : abs_feuchte_aus_rel_feuchte t1 r1 < abs_feuchte_aus_rel_feuchte t2 r2) :
    r1 / 100 * saettigungsdampfdruck t1 < r2 / 100 * saettigungsdampfdruck t2 := by
  by_contra hle
  push_neg at hle
  rcases eq_or_lt_of_le hle with heq | hlt2
  · have heqw : abs_feuchte_aus_rel_feuchte t2 r2 = abs_feuchte_aus_rel_feuchte t1 r1 := by
      unfold abs_feuchte_aus_rel_feuchte
      rw [heq]
    linarith
  · obtain ⟨he20, -, -⟩ := vapor_pressure_range h2 h2b hr2 hr2b
    obtain ⟨-, -, he1lt⟩ := vapor_pressure_range h1 h1b hr1 hr1b
    have hww : abs_feuchte_aus_rel_feuchte t2 r2 < abs_feuchte_aus_rel_feuchte t1 r1 :=
      w_of_e_strictMono he20 hlt2 he1lt
    linarith

/-- C1: for any configuration within the documented input ranges (outdoor
temperature in [-20,45] °C, outdoor RH in [0,100] %, target temperature in
[16,30] °C, target RH in [0,100] %, heat-recovery effectiveness in [0,0.95],
either mode), all four stage energies returned by `berechne_rlt_prozess`
(`kuehlung_entf`, `nachheizung`, `heizung_direkt`, `kuehlung_direkt`) are
non-negative. -/
theorem C1_stage_powers_nonneg (ta fa tz fz w : ℝ) (entf : Bool)
    (hta1 : -20 ≤ ta) (hta2 : ta ≤ 45) (hfa1 : 0 ≤ fa) (hfa2 : fa ≤ 100)
    (htz1 : 16 ≤ tz) (htz2 : tz ≤ 30) (hfz1 : 0 ≤ fz) (hfz2 : fz ≤ 100)
    (hw1 : 0 ≤ w) (hw2 : w ≤ 0.95) :
    0 ≤ (berechne_rlt_prozess ta fa tz fz w entf).leistungen.kuehlung_entf ∧
      0 ≤ (berechne_rlt_prozess ta fa tz fz w entf).leistungen.nachheizung ∧
      0 ≤ (berechne_rlt_prozess ta fa tz fz w entf).leistungen.heizung_direkt ∧
      0 ≤ (berechne_rlt_prozess ta fa tz fz w entf).leistungen.kuehlung_direkt := by
  have hta0 : (-243.5 : ℝ) < ta := by linarith
  have htz0 : (-243.5 : ℝ) < tz := by linarith
  have htz45 : tz ≤ 45 := by linarith
  obtain ⟨hea0, heale, healt⟩ := vapor_pressure_range hta0 hta2 hfa1 hfa2
  obtain ⟨hez0, hezle, hezlt⟩ := vapor_pressure_range htz0 htz45 hfz1 hfz2
  have hwa0 : 0 ≤ abs_feuchte_aus_rel_feuchte ta fa := w_of_e_nonneg hea0 healt
  have hwz0 : 0 ≤ abs_feuchte_aus_rel_feuchte tz fz := w_of_e_nonneg hez0 hezlt
  have hmin : min ta tz ≤ aktuelle_temp_rlt ta tz w := aktuelle_temp_rlt_ge_min hw1 hw2
  have hminlb : (-20 : ℝ) ≤ min ta tz := le_min hta1 (by linarith)
  by_cases hc : entf = true ∧
      abs_feuchte_aus_rel_feuchte tz fz < abs_feuchte_aus_rel_feuchte ta fa
  · have htp_ub : taupunkt_aus_abs_feuchte (abs_feuchte_aus_rel_feuchte tz fz) ≤
        min ta tz := by
      rcases eq_or_lt_of_le hwz0 with heq | hpos
      · rw [taupunkt_of_neg heq.symm.le]
        linarith
      · have hez_pos : 0 < fz / 100 * saettigungsdampfdruck tz := by
          rcases eq_or_lt_of_le hez0 with h0 | h0
          · exfalso
            have hzero : abs_feuchte_aus_rel_feuchte tz fz = 0 := by
              unfold abs_feuchte_aus_rel_feuchte
              rw [← h0]
              norm_num
            linarith
          · exact h0
        have he_lt : fz / 100 * saettigungsdampfdruck tz <
            fa / 100 * saettigungsdampfdruck ta :=
          abs_feuchte_mono_e htz0 htz45 hfz1 hfz2 hta0 hta2 hfa1 hfa2 hc.2
        have h_le_ta : taupunkt_aus_abs_feuchte (abs_feuchte_aus_rel_feuchte tz fz) ≤ ta :=
          taupunkt_le_of_le_sdp hta0 hta2 hez_pos (le_trans he_lt.le heale)
        have h_le_tz : taupunkt_aus_abs_feuchte (abs_feuchte_aus_rel_feuchte tz fz) ≤ tz :=
          taupunkt_le_of_le_sdp htz0 htz45 hez_pos hezle
        exact le_min h_le_ta h_le_tz
    have htp_lb := taupunkt_lower (abs_feuchte_aus_rel_feuchte tz fz)
    have htk_eq : kuhltemperatur_fur_entfeuchtung (abs_feuchte_aus_rel_feuchte tz fz) 1 =
        taupunkt_aus_abs_feuchte (abs_feuchte_aus_rel_feuchte tz fz) - 1 := rfl
    by_cases hr : kuhltemperatur_fur_entfeuchtung (abs_feuchte_aus_rel_feuchte tz fz) 1 < tz
    · rw [prozess_dehum_reheat hc hr]
      dsimp only
      rw [htk_eq] at hr ⊢
      refine ⟨?_, ?_, le_refl 0, le_refl 0⟩
      · exact enthalpie_dehum_nonneg hwa0 hc.2.le
          (by have := min_le_left ta tz; have := min_le_right ta tz; linarith)
          (by linarith)
      · exact enthalpie_diff_nonneg hwz0 hr.le
    · rw [prozess_dehum_noreheat hc hr]
      dsimp only
      rw [htk_eq]
      refine ⟨?_, le_refl 0, le_refl 0, le_refl 0⟩
      exact enthalpie_dehum_nonneg hwa0 hc.2.le
        (by have := min_le_left ta tz; have := min_le_right ta tz; linarith)
        (by linarith)
  · by_cases h1 : aktuelle_temp_rlt ta tz w < tz
    · rw [prozess_erwaermung hc h1]
      dsimp only
      refine ⟨le_refl 0, le_refl 0, ?_, le_refl 0⟩
      exact enthalpie_diff_nonneg hwa0 h1.le
    · by_cases h2 : tz < aktuelle_temp_rlt ta tz w
      · rw [prozess_kuehlung hc h1 h2]
        dsimp only
        refine ⟨le_refl 0, le_refl 0, le_refl 0, ?_⟩
        exact enthalpie_diff_nonneg hwa0 h2.le
      · rw [prozess_passthrough hc h1 h2]
        exact ⟨le_refl 0, le_refl 0, le_refl 0, le_refl 0⟩

/-- Witness for C1 at outdoor 30 °C / 70 % RH, target 20 °C / 40 % RH,
effectiveness 0.5, dehumidify mode. -/
theorem C1_stage_powers_nonneg_witness :
    ((-20 : ℝ) ≤ 30 ∧ (30 : ℝ) ≤ 45 ∧ (0 : ℝ) ≤ 70 ∧ (70 : ℝ) ≤ 100 ∧
        (16 : ℝ) ≤ 20 ∧ (20 : ℝ) ≤ 30 ∧ (0 : ℝ) ≤ 40 ∧ (40 : ℝ) ≤ 100 ∧
        (0 : ℝ) ≤ 0.5 ∧ (0.5 : ℝ) ≤ 0.95) ∧
      (0 ≤ (berechne_rlt_prozess 30 70 20 40 0.5 true).leistungen.kuehlung_entf ∧
        0 ≤ (berechne_rlt_prozess 30 70 20 40 0.5 true).leistungen.nachheizung ∧
        0 ≤ (berechne_rlt_prozess 30 70 20 40 0.5 true).leistungen.heizung_direkt ∧
        0 ≤ (berechne_rlt_prozess 30 70 20 40 0.5 true).leistungen.kuehlung_direkt) :=
  ⟨by norm_num,
    C1_stage_powers_nonneg 30 70 20 40 0.5 true (by norm_num) (by norm_num)
      (by norm_num) (by norm_num) (by norm_num) (by norm_num) (by norm_num)
      (by norm_num) (by norm_num) (by norm_num)⟩

end RLT
